import Mathlib

/-
Verification of the Urho3D font glyph-atlas builder
(Source/Engine/UI/Font.cpp of the shown repository).

The C++ code is shallowly embedded below:
* machine integers become Int/Nat with explicit wrapping where the source casts
  (`(short)` casts, storage of signed amounts in `HashMap<unsigned, unsigned>`);
* Urho3D `HashMap` becomes an association list with first-match lookup,
  replace-or-append insertion and erasure of the key;
* the FreeType engine, image decoding and texture creation are external
  collaborators of Font.cpp and enter the model as explicit parameters that
  record the responses the external calls would give;
* the while-loop at Font.cpp:296-368 is embedded with an explicit fuel
  parameter; exhausting the fuel is reported as `LoadResult.hang`, so that
  non-termination of the source loop is observable in the model.
-/

/-! ## Machine-integer helpers -/

/-- Wrap an `int` value to C `short` range, as the source's `(short)` casts do
(Font.cpp:248-252, 279). -/
def toShort16 (z : ℤ) : ℤ :=
  let m := z % 65536
  if m < 32768 then m else m - 65536

/-- Conversion of a signed value to `unsigned` (storage of kerning amounts in
`HashMap<unsigned, unsigned> kerning_`, Font.cpp:279 and Font.cpp:533). -/
def toUInt32 (z : ℤ) : ℕ :=
  (z % 4294967296).toNat

/-- Reading an `unsigned` map value back through the `short` return type of
`FontFace::GetKerning` (Font.cpp:126). -/
def toSignedShort (v : ℕ) : ℤ :=
  let m := v % 65536
  if m < 32768 then (m : ℤ) else (m : ℤ) - 65536

/-- An `unsigned char` pixel as produced by the rasterizer (`slot->bitmap.buffer`
entries are 8-bit; the model keeps the byte range explicit). -/
def uchar (n : ℕ) : ℕ := n % 256

/-- Urho3D `Clamp` template (used at Font.cpp:606). -/
def Clamp (value lo hi : ℤ) : ℤ :=
  if value < lo then lo else if value > hi then hi else value

/-- Font.cpp:46 -/
def MIN_POINT_SIZE : ℤ := 1

/-- Font.cpp:47 -/
def MAX_POINT_SIZE : ℤ := 96

/-! ## Association-list model of Urho3D `HashMap` -/

/-- Model of `HashMap::Find` — first entry with the key. -/
def alistFind {α β : Type} [DecidableEq α] (m : List (α × β)) (k : α) : Option β :=
  match m with
  | [] => Option.none
  | (k', v) :: rest => if k' = k then some v else alistFind rest k

/-- Model of `HashMap::operator[] = v` — replace the entry if present, append otherwise. -/
def alistInsert {α β : Type} [DecidableEq α] (m : List (α × β)) (k : α) (v : β) :
    List (α × β) :=
  match m with
  | [] => [(k, v)]
  | (k', v') :: rest =>
    if k' = k then (k, v) :: rest else (k', v') :: alistInsert rest k v

/-- Model of `HashMap::Erase` — remove the entries with the key. -/
def alistErase {α β : Type} [DecidableEq α] (m : List (α × β)) (k : α) :
    List (α × β) :=
  m.filter (fun p => p.1 ≠ k)

/-- Replace the element at an index of a list (`Vector::operator[]` assignment). -/
def listModify {α : Type} (l : List α) (i : ℕ) (g : α → α) : List α :=
  match l, i with
  | [], _ => []
  | a :: rest, 0 => g a :: rest
  | a :: rest, i + 1 => a :: listModify rest i g

/-! ## Data model (FontGlyph, textures, faces) -/

/-- One glyph's placement and metrics (struct `FontGlyph`; the metric fields are
written by the `(short)`-cast assignments of `FontFaceTTF::Load` or by the
`GetInt` reads of `FontFaceBitmap::Load`).  The default field values model the
state before the loaders assign them; `kerning_` is the per-glyph
`HashMap<unsigned, unsigned>` from following-key to stored kerning amount. -/
structure FontGlyph where
  x_ : ℤ := 0
  y_ : ℤ := 0
  width_ : ℤ := 0
  height_ : ℤ := 0
  offsetX_ : ℤ := 0
  offsetY_ : ℤ := 0
  advanceX_ : ℤ := 0
  page_ : ℕ := 0
  kerning_ : List (ℕ × ℕ) := []
deriving DecidableEq

/-- Default-constructed glyph (`FontGlyph()`, Font.cpp:77-79). -/
def emptyGlyph : FontGlyph := {}

/-- A page texture as far as Font.cpp observes it: its dimensions and the
data-loss flag queried by `FontFace::IsDataLost` (Font.cpp:131-139). -/
structure Texture where
  width : ℤ
  height : ℤ
  dataLost : Bool
deriving DecidableEq

/-- A writable 8-bit page image (`Image` with `SetSize`/`GetData`); the pixel
store is a function from (x, y) to the byte at that position. -/
structure Image where
  width : ℤ
  height : ℤ
  data : ℤ → ℤ → ℕ

/-- A built face: glyph table, code-point mapping, kerning flag, row height and
page textures (class `FontFace`).  `objId` models C++ object identity: each
`new FontFaceTTF(...)` / `new FontFaceBitmap(...)` in `Font::GetFaceTTF` /
`Font::GetFaceBitmap` yields a fresh object, modelled by stamping the
allocation counter of the owning `Font`. -/
structure FontFace where
  pointSize_ : ℤ
  hasKerning_ : Bool
  rowHeight_ : ℤ
  glyphs_ : List FontGlyph
  glyphMapping_ : List (ℕ × ℕ)
  textures_ : List Texture
  objId : ℕ
deriving DecidableEq

/-- Embedding of `FontFace::GetGlyph` (Font.cpp:91-101).  The source indexes
`glyphs_[i->second_]` unchecked; built faces keep every mapped index in range,
and the model returns the glyph at that index. -/
def FontFace.GetGlyph (f : FontFace) (c : ℕ) : Option FontGlyph :=
  match alistFind f.glyphMapping_ c with
  | some i => f.glyphs_.get? i
  | Option.none => Option.none

/-- Embedding of `FontFace::GetKerning` (Font.cpp:103-129).  `'\n'` is code point 10.
`glyphs_[leftIndex]` is an unchecked access in the source; built faces keep
mapped indexes in range. -/
def FontFace.GetKerning (f : FontFace) (c d : ℕ) : ℤ :=
  if f.hasKerning_ = false then 0
  else if c = 10 ∨ d = 10 then 0
  else
    match alistFind f.glyphMapping_ c with
    | Option.none => 0
    | some leftIndex =>
      match alistFind f.glyphMapping_ d with
      | Option.none => 0
      | some rightIndex =>
        match alistFind (f.glyphs_.getD leftIndex emptyGlyph).kerning_ rightIndex with
        | some v => toSignedShort v
        | Option.none => 0

/-- Embedding of `FontFace::IsDataLost` (Font.cpp:131-139). -/
def FontFace.IsDataLost (f : FontFace) : Bool :=
  f.textures_.any (fun t => t.dataLost)

/-! ## Rectangle packer

Modelled from the spec: the source file `AreaAllocator.cpp` is not among the
shown sources (Font.cpp only calls it), so the packer is modelled from
section 4.1 of the specification: a greedy shelf-style packer with a minimum
starting size and a maximum allowed size; requests are placed left to right on
the current shelf, a new shelf is opened when the current one is full, and a
request whose size exceeds the maximum page dimension on either axis fails;
the reported page dimensions are the extent of the placed rectangles clamped
below by the minimum size. -/
structure AreaAllocator where
  minWidth : ℤ
  minHeight : ℤ
  maxWidth : ℤ
  maxHeight : ℤ
  penX : ℤ
  penY : ℤ
  rowH : ℤ
  usedWidth : ℤ
  usedHeight : ℤ

/-- Modelled from the spec: `AreaAllocator(min, min, max, max)` constructor. -/
def AreaAllocator.make (minW minH maxW maxH : ℤ) : AreaAllocator :=
  { minWidth := minW, minHeight := minH, maxWidth := maxW, maxHeight := maxH,
    penX := 0, penY := 0, rowH := 0, usedWidth := 0, usedHeight := 0 }

/-- Modelled from the spec: `AreaAllocator::Allocate(width, height, x, y)`.
Returns the assigned top-left position and the updated allocator, or failure
when the request cannot fit within the maximum page size. -/
def AreaAllocator.Allocate (a : AreaAllocator) (w h : ℤ) :
    Option (ℤ × ℤ × AreaAllocator) :=
  if w > a.maxWidth ∨ h > a.maxHeight then Option.none
  else if a.penX + w ≤ a.maxWidth ∧ a.penY + h ≤ a.maxHeight then
    some (a.penX, a.penY,
      { a with
        penX := a.penX + w,
        rowH := max a.rowH h,
        usedWidth := max a.usedWidth (a.penX + w),
        usedHeight := max a.usedHeight (a.penY + h) })
  else if a.penY + a.rowH + h ≤ a.maxHeight ∧ w ≤ a.maxWidth then
    some ((0 : ℤ), a.penY + a.rowH,
      { a with
        penX := w,
        penY := a.penY + a.rowH,
        rowH := h,
        usedWidth := max a.usedWidth w,
        usedHeight := max a.usedHeight (a.penY + a.rowH + h) })
  else Option.none

/-- Modelled from the spec: `AreaAllocator::GetWidth`. -/
def AreaAllocator.GetWidth (a : AreaAllocator) : ℤ := max a.minWidth a.usedWidth

/-- Modelled from the spec: `AreaAllocator::GetHeight`. -/
def AreaAllocator.GetHeight (a : AreaAllocator) : ℤ := max a.minHeight a.usedHeight

/-- Modelled from the spec: the `FONT_TEXTURE_MIN_SIZE` / `FONT_TEXTURE_MAX_SIZE`
constants passed to the allocator at Font.cpp:298 are declared in the Font
header, which is not among the shown sources; the spec calls them
implementation-defined minimum and maximum texture edge lengths, so the model
keeps them as a parameter. -/
structure FontConfig where
  texMinSize : ℤ
  texMaxSize : ℤ

/-! ## FreeType engine abstraction (outline-rasterization engine)

Font.cpp drives FreeType through `FT_New_Memory_Face`, `FT_Set_Char_Size`,
`FT_Get_First_Char`/`FT_Get_Next_Char`, `FT_Load_Glyph`, `FT_Get_Kerning` and
`FT_Render_Glyph`.  The engine is external to the repository; the model records
the responses those calls would give for the font bytes at hand. -/

/-- Glyph metrics as read from `slot->metrics` after `FT_Load_Glyph`
(26.6 fixed-point values, hence the `>> 6` shifts in the source). -/
structure FTGlyphMetrics where
  width : ℤ
  height : ℤ
  horiBearingX : ℤ
  horiBearingY : ℤ
  horiAdvance : ℤ

/-- The outline engine's view of one font face at the requested size. -/
structure FTFace where
  /-- The (charCode, glyphIndex) pairs yielded by `FT_Get_First_Char` /
  `FT_Get_Next_Char` before the terminating zero glyph index, in iteration
  order. -/
  charMap : List (ℕ × ℕ)
  /-- The `FT_Load_Glyph` outcome per glyph index: metrics on success,
  `Option.none` on a per-glyph error. -/
  glyphMetrics : ℕ → Option FTGlyphMetrics
  /-- The `FT_HAS_KERNING(face)` flag. -/
  hasKerning : Bool
  /-- The value `FT_Get_Kerning(face, i, j, FT_KERNING_DEFAULT).x`. -/
  kerningVector : ℕ → ℕ → ℤ
  /-- The coverage bitmap produced by `FT_Render_Glyph` for a glyph index:
  row, column to raw buffer byte. -/
  bitmap : ℕ → ℕ → ℕ → ℕ
  /-- The value `face->size->metrics.ascender`. -/
  ascender : ℤ
  /-- The value `face->size->metrics.height`. -/
  heightMetric : ℤ

/-- The rendered 8-bit coverage value read from `slot->bitmap.buffer`
(an `unsigned char`, hence the byte range). -/
def FTFace.renderedPixel (ft : FTFace) (i : ℕ) : ℕ → ℕ → ℕ :=
  fun y x => uchar (ft.bitmap i y x)

/-- Responses of the engine calls made before glyph enumeration. -/
structure TTFEngine where
  /-- The `FT_New_Memory_Face` outcome: the face, or `Option.none` on error. -/
  newMemoryFace : Option FTFace
  /-- Whether `FT_Set_Char_Size` succeeds. -/
  setCharSizeOk : Bool

/-! ## Outline ingestion pipeline (`FontFaceTTF::Load`, Font.cpp:177-411) -/

/-- Outcome of a face build.  `hang` is produced when the fuel of the embedded
packing loop runs out: the source loop (Font.cpp:296-368) has no other exit,
so `hang` for every fuel models a build that never returns. -/
inductive LoadResult
  | ok (face : FontFace)
  | fail
  | hang
deriving DecidableEq

/-- Glyph-mapping construction (Font.cpp:222-230): `numGlyphs` accumulation and
`glyphMapping_[charCode] = glyphIndex`. -/
def buildGlyphMapping (charMap : List (ℕ × ℕ)) : ℕ × List (ℕ × ℕ) :=
  charMap.foldl (fun acc p => (max (p.2 + 1) acc.1, alistInsert acc.2 p.1 p.2))
    (0, [])

/-- Metrics loop (Font.cpp:235-266): one glyph per index below `numGlyphs`,
zero-sized placeholder when `FT_Load_Glyph` fails, running `maxHeight`. -/
def loadGlyphMetrics (ft : FTFace) (numGlyphs : ℕ) : List FontGlyph × ℤ :=
  (List.range numGlyphs).foldl
    (fun acc i =>
      match ft.glyphMetrics i with
      | some m =>
        let g : FontGlyph :=
          { width_ := toShort16 (m.width.fdiv 64),
            height_ := toShort16 (m.height.fdiv 64),
            offsetX_ := toShort16 (m.horiBearingX.fdiv 64),
            offsetY_ := toShort16 ((ft.ascender - m.horiBearingY).fdiv 64),
            advanceX_ := toShort16 (m.horiAdvance.fdiv 64) }
        (acc.1 ++ [g], max acc.2 g.height_)
      | Option.none => (acc.1 ++ [emptyGlyph], acc.2))
    ([], 0)

/-- Inner kerning loop (Font.cpp:275-281): for one left glyph index `i`, store
`(short)(vector.x >> 6)` for every right index `j` into the `unsigned`-valued
per-glyph map. -/
def storeKerningRow (ft : FTFace) (numGlyphs i : ℕ) (m0 : List (ℕ × ℕ)) :
    List (ℕ × ℕ) :=
  (List.range numGlyphs).foldl
    (fun m j => alistInsert m j (toUInt32 (toShort16 ((ft.kerningVector i j).fdiv 64))))
    m0

/-- Kerning loop (Font.cpp:269-282): for every ordered index pair the source
stores `(short)(vector.x >> 6)` into the `unsigned`-valued per-glyph map. -/
def storeKerning (ft : FTFace) (numGlyphs : ℕ) (glyphs : List FontGlyph) :
    List FontGlyph :=
  (List.range numGlyphs).foldl
    (fun gs i =>
      listModify gs i (fun g => { g with kerning_ := storeKerningRow ft numGlyphs i g.kerning_ }))
    glyphs

/-- Inner placement loop (Font.cpp:299-320): walk `index` upward from
`startIndex`, assigning positions (with the one-pixel filter border) until an
allocation fails; `remaining` counts the indexes still below `numGlyphs`. -/
def packGlyphs (alloc : AreaAllocator) (glyphs : List FontGlyph) (page : ℕ)
    (index : ℕ) : ℕ → List FontGlyph × AreaAllocator × ℕ
  | 0 => (glyphs, alloc, index)
  | r + 1 =>
    let g := glyphs.getD index emptyGlyph
    if g.width_ ≠ 0 ∧ g.height_ ≠ 0 then
      match alloc.Allocate (g.width_ + 1) (g.height_ + 1) with
      | some (x, y, alloc') =>
        packGlyphs alloc'
          (listModify glyphs index (fun g0 => { g0 with x_ := x, y_ := y, page_ := page }))
          page (index + 1) r
      | Option.none => (glyphs, alloc, index)
    else
      packGlyphs alloc
        (listModify glyphs index (fun g0 => { g0 with x_ := 0, y_ := 0, page_ := 0 }))
        page (index + 1) r

/-- Copy one glyph's coverage bitmap into the page image at its assigned
offset (the row-by-row `dest[x] = src[x]` copy of Font.cpp:348-358; the
source's flat `texWidth * y` addressing is modelled two-dimensionally). -/
def blitRect (dest : ℤ → ℤ → ℕ) (src : ℕ → ℕ → ℕ) (gx gy w h : ℤ) :
    ℤ → ℤ → ℕ :=
  fun X Y =>
    if gx ≤ X ∧ X < gx + w ∧ gy ≤ Y ∧ Y < gy + h then
      src (Y - gy).toNat (X - gx).toNat
    else dest X Y

/-- Maximum pixel value over a w×h bitmap rectangle (the running
`glyphOpacity = Max(glyphOpacity, src[x])` of Font.cpp:347-357). -/
def rectMax (src : ℕ → ℕ → ℕ) (w h : ℤ) : ℕ :=
  (List.range h.toNat).foldl
    (fun acc y => (List.range w.toNat).foldl (fun a x => max a (src y x)) acc) 0

/-- Render loop over one page (Font.cpp:339-364): blit each placed glyph with
non-zero size, and accumulate `sumMaxOpacity`/`samples` over the glyphs whose
maximum rendered pixel is non-zero.  `remaining` counts the glyph indexes from
`i` up to (excluding) the page's end index. -/
def renderGlyphs (ft : FTFace) (data : ℤ → ℤ → ℕ) (glyphs : List FontGlyph)
    (i : ℕ) : ℕ → ℕ → ℕ → (ℤ → ℤ → ℕ) × ℕ × ℕ
  | 0, sum, samples => (data, sum, samples)
  | r + 1, sum, samples =>
    let g := glyphs.getD i emptyGlyph
    if g.width_ = 0 ∨ g.height_ = 0 then
      renderGlyphs ft data glyphs (i + 1) r sum samples
    else
      let data' := blitRect data (ft.renderedPixel i) g.x_ g.y_ g.width_ g.height_
      let gOp := rectMax (ft.renderedPixel i) g.width_ g.height_
      if gOp ≠ 0 then renderGlyphs ft data' glyphs (i + 1) r (sum + gOp) (samples + 1)
      else renderGlyphs ft data' glyphs (i + 1) r sum samples

/-- The paging while-loop (Font.cpp:296-368): keep opening pages until
`startIndex` reaches `numGlyphs`.  Each iteration packs from `startIndex`, then
clears and renders the page image and accumulates the opacity statistics.
The loop consumes one unit of fuel per iteration; `Option.none` is returned
when the fuel is exhausted, which for every fuel models non-termination. -/
def packLoop (ft : FTFace) (cfg : FontConfig) (glyphs : List FontGlyph)
    (numGlyphs : ℕ) (images : List Image) (page : ℕ) (startIndex : ℕ)
    (sum samples : ℕ) : ℕ → Option (List FontGlyph × List Image × ℕ × ℕ)
  | 0 => Option.none
  | fuel + 1 =>
    if startIndex < numGlyphs then
      let a0 := AreaAllocator.make cfg.texMinSize cfg.texMinSize cfg.texMaxSize cfg.texMaxSize
      let pr := packGlyphs a0 glyphs page startIndex (numGlyphs - startIndex)
      let glyphs' := pr.1
      let index := pr.2.2
      let texW := pr.2.1.GetWidth
      let texH := pr.2.1.GetHeight
      let rr := renderGlyphs ft (fun _ _ => 0) glyphs' startIndex (index - startIndex) sum samples
      packLoop ft cfg glyphs' numGlyphs (images ++ [⟨texW, texH, rr.1⟩]) (page + 1)
        index rr.2.1 rr.2.2 fuel
    else some (glyphs, images, sum, samples)

/-- The average-opacity computation (Font.cpp:370-373): 255 when no samples,
otherwise the integer average clamped to a floor of 128.  The value fits the
source's `unsigned char` since every sample is a byte. -/
def avgMaxOpacity (sum samples : ℕ) : ℕ :=
  if samples ≠ 0 then max (sum / samples) 128 else 255

/-- One pixel of the scaling pass (Font.cpp:388-389):
`Min((int)(pixel * scale), 255)` with `scale = 255.0f / avgMaxOpacity`.
The float product is modelled exactly over ℚ with truncation; for the
floor-engaged average 128 the float scale 255/128 is exactly representable, so
model and source agree bit-for-bit there. -/
def scalePixel (avg : ℕ) (pix : ℕ) : ℕ :=
  min (((pix : ℚ) * (255 / (avg : ℚ))).floor.toNat) 255

/-- Scale the pixels of one glyph's occupied sub-rectangle of its page image
(the per-glyph double loop of Font.cpp:383-391). -/
def scaleGlyphRegion (avg : ℕ) (img : Image) (g : FontGlyph) : Image :=
  { img with data := fun X Y =>
      if g.x_ ≤ X ∧ X < g.x_ + g.width_ ∧ g.y_ ≤ Y ∧ Y < g.y_ + g.height_ then
        scalePixel avg (img.data X Y)
      else img.data X Y }

/-- The opacity-normalization pass (Font.cpp:375-393): when the clamped
average is below 255, rescale every glyph's region on its page. -/
def applyOpacity (avg : ℕ) (glyphs : List FontGlyph) (images : List Image) :
    List Image :=
  if avg < 255 then
    glyphs.foldl
      (fun imgs g => listModify imgs g.page_ (fun img => scaleGlyphRegion avg img g))
      images
  else images

/-- Texture creation per page (Font.cpp:396-406); `mk` is the outcome of
`FontFace::LoadFaceTexture`, an external texture-facility call. -/
def makeTextures (mk : Image → Option Texture) : List Image → Option (List Texture)
  | [] => some []
  | img :: rest =>
    match mk img with
    | Option.none => Option.none
    | some t =>
      match makeTextures mk rest with
      | Option.none => Option.none
      | some ts => some (t :: ts)

/-- Tail of `FontFaceTTF::Load` after the packing loop (Font.cpp:370-411):
opacity normalization, texture creation, and assembly of the face. -/
def ttfFinishBuild (mk : Image → Option Texture) (glyphMapping : List (ℕ × ℕ))
    (hasKerning : Bool) (rowHeight pointSize : ℤ)
    (r : List FontGlyph × List Image × ℕ × ℕ) : LoadResult :=
  let avg := avgMaxOpacity r.2.2.1 r.2.2.2
  let images := applyOpacity avg r.1 r.2.1
  match makeTextures mk images with
  | Option.none => LoadResult.fail
  | some ts =>
    LoadResult.ok
      { pointSize_ := pointSize, hasKerning_ := hasKerning, rowHeight_ := rowHeight,
        glyphs_ := r.1, glyphMapping_ := glyphMapping, textures_ := ts, objId := 0 }

/-- Embedding of `FontFaceTTF::Load` (Font.cpp:177-411).  The `font_` null check of line
179 is outside the model (the loaders are only ever invoked by their owning
`Font`).  Guards in source order: non-positive point size, empty font data,
`FT_New_Memory_Face` failure, `FT_Set_Char_Size` failure. -/
def FontFaceTTF.Load (eng : TTFEngine) (cfg : FontConfig)
    (mk : Image → Option Texture) (fontDataSize : ℕ) (pointSize : ℤ)
    (fuel : ℕ) : LoadResult :=
  if pointSize ≤ 0 then LoadResult.fail
  else if fontDataSize = 0 then LoadResult.fail
  else
    match eng.newMemoryFace with
    | Option.none => LoadResult.fail
    | some ft =>
      if eng.setCharSizeOk = false then LoadResult.fail
      else
        let nm := buildGlyphMapping ft.charMap
        let gm := loadGlyphMetrics ft nm.1
        let glyphs0 := if ft.hasKerning then storeKerning ft nm.1 gm.1 else gm.1
        let rowHeight := max ((ft.heightMetric + 63).fdiv 64) gm.2
        match packLoop ft cfg glyphs0 nm.1 [] 0 0 0 0 fuel with
        | Option.none => LoadResult.hang
        | some r => ttfFinishBuild mk nm.2 ft.hasKerning rowHeight pointSize r

/-! ## Bitmap-sheet ingestion pipeline (`FontFaceBitmap::Load`, Font.cpp:423-543) -/

/-- One `<char .../>` record of the glyph-sheet descriptor (all attributes read
with `GetInt`, Font.cpp:501-510). -/
structure CharRec where
  id : ℤ
  x : ℤ
  y : ℤ
  width : ℤ
  height : ℤ
  xoffset : ℤ
  yoffset : ℤ
  xadvance : ℤ
  page : ℤ
deriving DecidableEq

/-- One `<kerning .../>` record (Font.cpp:525-530). -/
structure KerningRec where
  first : ℤ
  second : ℤ
  amount : ℤ
deriving DecidableEq

/-- The parsed glyph-sheet descriptor as `FontFaceBitmap::Load` observes it
through the XML interface.  `parseOk` is the outcome of `xmlReader->Load`;
`hasFontRoot` / `hasPagesElem` record whether `GetRoot("font")` and
`GetChild("pages")` are non-null; `infoSize` is the `<info size=...>`
attribute when the `info` element is present; `lineHeight` and `pageCount`
come from the `common` element (a `GetInt` on a missing element yields 0);
`pageFiles` are the `<page file=.../>` attributes in document order;
`chars` and `kernings` are the records in document order, with
`kernings = Option.none` when the `kernings` element is absent.  The `count`
attribute of `chars` is only used for `Reserve` and a debug log in the source
and is not modelled. -/
structure BMFontDesc where
  parseOk : Bool
  hasFontRoot : Bool
  hasPagesElem : Bool
  infoSize : Option ℤ
  lineHeight : ℤ
  pageCount : ℕ
  pageFiles : List String
  chars : List CharRec
  kernings : Option (List KerningRec)

/-- Page loop (Font.cpp:464-491): for each of the `pageCount` declared pages
there must be a further `<page>` element, its image must load
(`resourceCache->GetFile` + `Image::Load`, modelled by `loadImage`) and a
texture must be created from it (`LoadFaceTexture`, modelled by `mk`); any
failure aborts the build. -/
def loadPageTextures (loadImage : String → Option Image)
    (mk : Image → Option Texture) : List String → ℕ → Option (List Texture)
  | _, 0 => some []
  | [], _ + 1 => Option.none
  | file :: rest, n + 1 =>
    match loadImage file with
    | Option.none => Option.none
    | some img =>
      match mk img with
      | Option.none => Option.none
      | some t =>
        match loadPageTextures loadImage mk rest n with
        | Option.none => Option.none
        | some ts => some (t :: ts)

/-- Char loop (Font.cpp:498-515): append each record's glyph to the table and
map its id (an `int` stored as an `unsigned` key) to the running index; later
duplicate ids overwrite earlier mapping entries.  The glyph field types are
declared in the Font header (not among the shown sources); the attribute
values are kept as read. -/
def loadChars (chars : List CharRec) : List FontGlyph × List (ℕ × ℕ) :=
  chars.foldl
    (fun acc r =>
      let glyph : FontGlyph :=
        { x_ := r.x, y_ := r.y, width_ := r.width, height_ := r.height,
          offsetX_ := r.xoffset, offsetY_ := r.yoffset, advanceX_ := r.xadvance,
          page_ := toUInt32 r.page }
      (acc.1 ++ [glyph], alistInsert acc.2 (toUInt32 r.id) acc.1.length))
    ([], [])

/-- Kerning loop (Font.cpp:522-537): a record whose `first` id is absent from
the mapping is silently dropped; otherwise the source stores
`glyph.kerning_[second] = amount` on the glyph at the mapped index — the key
is the raw `second` id and the `int` amount is stored as `unsigned`. -/
def loadKernings (ks : List KerningRec) (mapping : List (ℕ × ℕ))
    (glyphs : List FontGlyph) : List FontGlyph :=
  ks.foldl
    (fun gs k =>
      match alistFind mapping (toUInt32 k.first) with
      | Option.none => gs
      | some i =>
        listModify gs i
          (fun g => { g with kerning_ := alistInsert g.kerning_ (toUInt32 k.second) (toUInt32 k.amount) }))
    glyphs

/-- Embedding of `FontFaceBitmap::Load` (Font.cpp:423-543).  The `font_` null check of line
425 is outside the model.  `pointSize` is the value the constructor put into
`pointSize_` (overwritten by the `info` element's size when present,
Font.cpp:451-453).  Note Font.cpp:517-538: when the `kernings` element is
absent the source sets `hasKerning_ = false`; when it is present the loop
stores the pairs but never sets `hasKerning_` to true, so the flag keeps the
constructor's `false` (Font.cpp:83) either way. -/
def FontFaceBitmap.Load (desc : BMFontDesc) (loadImage : String → Option Image)
    (mk : Image → Option Texture) (pointSize : ℤ) : Option FontFace :=
  if desc.parseOk = false then Option.none
  else if desc.hasFontRoot = false then Option.none
  else if desc.hasPagesElem = false then Option.none
  else
    let pointSize' := match desc.infoSize with
      | some s => s
      | Option.none => pointSize
    match loadPageTextures loadImage mk desc.pageFiles desc.pageCount with
    | Option.none => Option.none
    | some textures =>
      let cm := loadChars desc.chars
      let glyphs := match desc.kernings with
        | Option.none => cm.1
        | some ks => loadKernings ks cm.2 cm.1
      some
        { pointSize_ := pointSize', hasKerning_ := false, rowHeight_ := desc.lineHeight,
          glyphs_ := glyphs, glyphMapping_ := cm.2, textures_ := textures, objId := 0 }

/-! ## Font resource and face cache (`Font`, Font.cpp:545-655) -/

/-- The `FontType` discriminant (set from the resource name's extension in `Font::Load`,
Font.cpp:585-589). -/
inductive FontType
  | FONT_NONE
  | FONT_TTF
  | FONT_BITMAP
deriving DecidableEq

/-- The `Font` resource state that `GetFace` observes: the font kind, whether
a `Graphics` subsystem exists (headless check, Font.cpp:598-600), the
size-keyed face cache `faces_`, and an allocation counter modelling the
object identity of successive `new FontFaceTTF` / `new FontFaceBitmap`
allocations. -/
structure Font where
  fontType : FontType
  hasGraphics : Bool
  faces : List (ℤ × FontFace)
  nextId : ℕ

/-- The effective cache key for a request (Font.cpp:602-606): bitmap fonts
always use size 0; otherwise the requested size is clamped to
`[MIN_POINT_SIZE, MAX_POINT_SIZE]`. -/
def Font.faceKey (f : Font) (pointSize : ℤ) : ℤ :=
  match f.fontType with
  | FontType.FONT_BITMAP => 0
  | _ => Clamp pointSize MIN_POINT_SIZE MAX_POINT_SIZE

/-- Embedding of `Font::GetFaceTTF` (Font.cpp:635-644).  `loadTTF` is the outcome of
`newFace->Load(fontData_, fontDataSize_)` at the given (already clamped)
point size; the freshly allocated face is stamped with the font's allocation
counter.  The overall `Option.none` result propagates a load that never
returns (`LoadResult.hang`). -/
def Font.GetFaceTTF (loadTTF : ℤ → LoadResult) (f : Font) (pointSize : ℤ) :
    Option (Option FontFace × Font) :=
  match loadTTF pointSize with
  | LoadResult.hang => Option.none
  | LoadResult.fail =>
    some ((Option.none : Option FontFace), { f with nextId := f.nextId + 1 })
  | LoadResult.ok face0 =>
    let newFace := { face0 with objId := f.nextId }
    some (some newFace,
      { f with faces := alistInsert f.faces pointSize newFace, nextId := f.nextId + 1 })

/-- Embedding of `Font::GetFaceBitmap` (Font.cpp:646-655), analogous to `GetFaceTTF`;
the bitmap loader always returns synchronously. -/
def Font.GetFaceBitmap (loadBitmap : ℤ → Option FontFace) (f : Font)
    (pointSize : ℤ) : Option (Option FontFace × Font) :=
  match loadBitmap pointSize with
  | Option.none =>
    some ((Option.none : Option FontFace), { f with nextId := f.nextId + 1 })
  | some face0 =>
    let newFace := { face0 with objId := f.nextId }
    some (some newFace,
      { f with faces := alistInsert f.faces pointSize newFace, nextId := f.nextId + 1 })

/-- The build dispatch of `Font::GetFace` (the `switch` at Font.cpp:622-632). -/
def Font.BuildFace (loadTTF : ℤ → LoadResult) (loadBitmap : ℤ → Option FontFace)
    (f : Font) (pointSize : ℤ) : Option (Option FontFace × Font) :=
  match f.fontType with
  | FontType.FONT_TTF => Font.GetFaceTTF loadTTF f pointSize
  | FontType.FONT_BITMAP => Font.GetFaceBitmap loadBitmap f pointSize
  | FontType.FONT_NONE => some ((Option.none : Option FontFace), f)

/-- Embedding of `Font::GetFace` (Font.cpp:595-633): headless check, key computation,
cache lookup with data-loss-triggered eviction, and build on miss.  The
result pairs the returned face pointer with the font's state after the call;
the outer `Option.none` models a build that never returns. -/
def Font.GetFace (loadTTF : ℤ → LoadResult) (loadBitmap : ℤ → Option FontFace)
    (f : Font) (pointSize : ℤ) : Option (Option FontFace × Font) :=
  if f.hasGraphics then
    match alistFind f.faces (Font.faceKey f pointSize) with
    | some face =>
      if face.IsDataLost then
        Font.BuildFace loadTTF loadBitmap
          { f with faces := alistErase f.faces (Font.faceKey f pointSize) }
          (Font.faceKey f pointSize)
      else some (some face, f)
    | Option.none => Font.BuildFace loadTTF loadBitmap f (Font.faceKey f pointSize)
  else some ((Option.none : Option FontFace), f)

/-! ## Spec-side characterization used for the opacity claim -/

/-- Spec-side characterization (spec §4.4): the per-glyph maximum pixel values
of the glyphs a page's render loop visits, in visit order, with 0 standing for
the skipped zero-sized glyphs.  Used to compare the accumulated
`sumMaxOpacity`/`samples` of `renderGlyphs` against "the average of the
per-glyph maximum pixel values, computed only over glyphs whose maximum pixel
value is non-zero". -/
def glyphMaxes (ft : FTFace) (glyphs : List FontGlyph) : ℕ → ℕ → List ℕ
  | _, 0 => []
  | i, r + 1 =>
    (let g := glyphs.getD i emptyGlyph
     if g.width_ = 0 ∨ g.height_ = 0 then 0
     else rectMax (ft.renderedPixel i) g.width_ g.height_) ::
    glyphMaxes ft glyphs (i + 1) r

/-! ## Concrete instances used by the claim theorems -/

/-- Texture creation that succeeds for every page (a graphics device that
accepts every image). -/
def okTexture : Image → Option Texture :=
  fun img => some { width := img.width, height := img.height, dataLost := false }

/-- An image loader that decodes every referenced page file into a 64×64
8-bit image. -/
def okImage : String → Option Image :=
  fun _ => some { width := 64, height := 64, data := fun _ _ => 0 }

/-- C1 input: a descriptor with chars A (id 65, table index 0) and B (id 66,
table index 1) and a kernings section storing kerning(65,66) = -2. -/
def c1Desc : BMFontDesc :=
  { parseOk := true, hasFontRoot := true, hasPagesElem := true,
    infoSize := some 16, lineHeight := 18, pageCount := 1,
    pageFiles := ["c1page0.png"],
    chars := [{ id := 65, x := 0, y := 0, width := 10, height := 12,
                xoffset := 0, yoffset := 0, xadvance := 11, page := 0 },
              { id := 66, x := 12, y := 0, width := 9, height := 12,
                xoffset := 0, yoffset := 0, xadvance := 10, page := 0 }],
    kernings := some [{ first := 65, second := 66, amount := -2 }] }

/-- C1: the face built from `c1Desc` by the bitmap-sheet pipeline. -/
def c1Built : Option FontFace := FontFaceBitmap.Load c1Desc okImage okTexture 0

/-- C2/C7 engine: a well-formed one-glyph outline font (char 65 at glyph
index 1; index 0 has no metrics and becomes a zero-sized placeholder). -/
def c2FT : FTFace :=
  { charMap := [(65, 1)],
    glyphMetrics := fun i =>
      if i = 1 then some { width := 128, height := 128, horiBearingX := 0,
                           horiBearingY := 64, horiAdvance := 192 }
      else Option.none,
    hasKerning := false,
    kerningVector := fun _ _ => 0,
    bitmap := fun _ _ _ => 200,
    ascender := 640,
    heightMetric := 768 }

/-- C2 engine responses: face creation and size setting succeed. -/
def c2Eng : TTFEngine := { newMemoryFace := some c2FT, setCharSizeOk := true }

/-- C2 page-size configuration: minimum edge 4, maximum edge 8. -/
def c2Cfg : FontConfig := { texMinSize := 4, texMaxSize := 8 }

/-- C2: the `FontFaceTTF::Load` outcome as a function of the point size. -/
def c2lt : ℤ → LoadResult :=
  fun ps => FontFaceTTF.Load c2Eng c2Cfg okTexture 100 ps 8

/-- C2 bitmap loader (never invoked for a TTF font). -/
def c2lb : ℤ → Option FontFace := fun _ => Option.none

/-- C2: a freshly loaded outline font with an empty face cache. -/
def c2Font : Font :=
  { fontType := FontType.FONT_TTF, hasGraphics := true, faces := [], nextId := 0 }

/-- C3 engine face: glyph index 1 is 3000 pixels wide (metrics are 26.6
fixed-point, 192000 = 3000·64), so its padded width 3001 exceeds the maximum
page dimension 2048. -/
def c3FT : FTFace :=
  { charMap := [(65, 1)],
    glyphMetrics := fun i =>
      if i = 1 then some { width := 192000, height := 128, horiBearingX := 0,
                           horiBearingY := 0, horiAdvance := 192064 }
      else Option.none,
    hasKerning := false,
    kerningVector := fun _ _ => 0,
    bitmap := fun _ _ _ => 200,
    ascender := 640,
    heightMetric := 768 }

/-- C3 engine responses. -/
def c3Eng : TTFEngine := { newMemoryFace := some c3FT, setCharSizeOk := true }

/-- C3 page-size configuration with the real Urho3D texture bounds
(128 minimum, 2048 maximum edge). -/
def c3Cfg : FontConfig := { texMinSize := 128, texMaxSize := 2048 }

/-- C3: the glyph table after the metrics loop — a zero-sized placeholder at
index 0 and the 3000×2 glyph at index 1. -/
def c3Glyphs : List FontGlyph :=
  [emptyGlyph,
   { x_ := 0, y_ := 0, width_ := 3000, height_ := 2, offsetX_ := 0,
     offsetY_ := 10, advanceX_ := 3001, page_ := 0, kerning_ := [] }]

/-- C4: an outline font with an empty cache. -/
def c4Font : Font :=
  { fontType := FontType.FONT_TTF, hasGraphics := true, faces := [], nextId := 0 }

/-- C4: a build that fails at every size (for example, malformed font data —
`FT_New_Memory_Face` errors out). -/
def c4lt : ℤ → LoadResult := fun _ => LoadResult.fail

/-- C4 bitmap loader (never invoked). -/
def c4lb : ℤ → Option FontFace := fun _ => Option.none

/-- C6: a cached face whose single page texture has lost its data. -/
def c6Stale : FontFace :=
  { pointSize_ := 12, hasKerning_ := false, rowHeight_ := 14, glyphs_ := [],
    glyphMapping_ := [], textures_ := [{ width := 4, height := 4, dataLost := true }],
    objId := 0 }

/-- C6: the face the rebuild produces. -/
def c6New : FontFace :=
  { pointSize_ := 12, hasKerning_ := false, rowHeight_ := 14, glyphs_ := [],
    glyphMapping_ := [], textures_ := [{ width := 4, height := 4, dataLost := false }],
    objId := 0 }

/-- C6: an outline font whose cache holds `c6Stale` at size 12. -/
def c6Font : Font :=
  { fontType := FontType.FONT_TTF, hasGraphics := true, faces := [(12, c6Stale)],
    nextId := 1 }

/-- C6: a rebuild that succeeds. -/
def c6lt : ℤ → LoadResult := fun _ => LoadResult.ok c6New

/-- C6 bitmap loader (never invoked). -/
def c6lb : ℤ → Option FontFace := fun _ => Option.none

/-- C7: the face produced by a successful bitmap build. -/
def c7New : FontFace :=
  { pointSize_ := 16, hasKerning_ := false, rowHeight_ := 14, glyphs_ := [],
    glyphMapping_ := [], textures_ := [{ width := 4, height := 4, dataLost := false }],
    objId := 0 }

/-- C7: a bitmap font with an empty cache. -/
def c7Font : Font :=
  { fontType := FontType.FONT_BITMAP, hasGraphics := true, faces := [], nextId := 0 }

/-- C7 TTF loader (never invoked for a bitmap font). -/
def c7lt : ℤ → LoadResult := fun _ => LoadResult.fail

/-- C7: a bitmap build that succeeds. -/
def c7lb : ℤ → Option FontFace := fun _ => some c7New

/-- C8 input: the descriptor of the claim — one page, one char record
id=65 x=0 y=0 width=10 height=12 xoffset=0 yoffset=0 xadvance=11 page=0,
no kernings section. -/
def c8Desc : BMFontDesc :=
  { parseOk := true, hasFontRoot := true, hasPagesElem := true,
    infoSize := some 16, lineHeight := 14, pageCount := 1,
    pageFiles := ["c8page0.png"],
    chars := [{ id := 65, x := 0, y := 0, width := 10, height := 12,
                xoffset := 0, yoffset := 0, xadvance := 11, page := 0 }],
    kernings := Option.none }

/-- C8: a bitmap font resource holding `c8Desc` with an empty cache. -/
def c8Font : Font :=
  { fontType := FontType.FONT_BITMAP, hasGraphics := true, faces := [], nextId := 0 }

/-- C8 TTF loader (never invoked). -/
def c8lt : ℤ → LoadResult := fun _ => LoadResult.fail

/-- C8: the bitmap build over `c8Desc` with its page image resolving
successfully. -/
def c8lb : ℤ → Option FontFace :=
  fun ps => FontFaceBitmap.Load c8Desc okImage okTexture ps

/-- C8: the face the build produces. -/
def c8Face : FontFace :=
  { pointSize_ := 16, hasKerning_ := false, rowHeight_ := 14,
    glyphs_ := [{ x_ := 0, y_ := 0, width_ := 10, height_ := 12, offsetX_ := 0,
                  offsetY_ := 0, advanceX_ := 11, page_ := 0, kerning_ := [] }],
    glyphMapping_ := [(65, 0)],
    textures_ := [{ width := 64, height := 64, dataLost := false }],
    objId := 0 }

/-- C9 witness face: maps code points 65 and 66 only, with a kerning pair
stored under the right glyph's index, and the kerning flag set. -/
def c9Face : FontFace :=
  { pointSize_ := 12, hasKerning_ := true, rowHeight_ := 14,
    glyphs_ := [{ x_ := 0, y_ := 0, width_ := 10, height_ := 12, offsetX_ := 0,
                  offsetY_ := 0, advanceX_ := 11, page_ := 0,
                  kerning_ := [(1, toUInt32 (-2))] },
                { x_ := 12, y_ := 0, width_ := 9, height_ := 12, offsetX_ := 0,
                  offsetY_ := 0, advanceX_ := 10, page_ := 0, kerning_ := [] }],
    glyphMapping_ := [(65, 0), (66, 1)],
    textures_ := [{ width := 64, height := 64, dataLost := false }],
    objId := 0 }

/-- C10 witness face: the newline code point 10 is itself mapped (index 0) and
a non-zero kerning amount is stored for the pair (10, 65) under the right
glyph's index, with the kerning flag set. -/
def c10Face : FontFace :=
  { pointSize_ := 12, hasKerning_ := true, rowHeight_ := 14,
    glyphs_ := [{ x_ := 0, y_ := 0, width_ := 2, height_ := 2, offsetX_ := 0,
                  offsetY_ := 0, advanceX_ := 2, page_ := 0,
                  kerning_ := [(1, toUInt32 (-3))] },
                { x_ := 4, y_ := 0, width_ := 9, height_ := 12, offsetX_ := 0,
                  offsetY_ := 0, advanceX_ := 10, page_ := 0, kerning_ := [] }],
    glyphMapping_ := [(10, 0), (65, 1)],
    textures_ := [{ width := 64, height := 64, dataLost := false }],
    objId := 0 }

/-! ## Shared lemmas about the map model -/

theorem alistFind_insert_self {α β : Type} [DecidableEq α] (m : List (α × β))
    (k : α) (v : β) : alistFind (alistInsert m k v) k = some v := by
  induction m with
  | nil => simp [alistInsert, alistFind]
  | cons p rest ih =>
    by_cases hk : p.1 = k
    · simp [alistInsert, alistFind, hk]
    · simp [alistInsert, alistFind, hk, ih]

theorem alistFind_erase_self {α β : Type} [DecidableEq α] (m : List (α × β))
    (k : α) : alistFind (alistErase m k) k = (Option.none : Option β) := by
  induction m with
  | nil => simp [alistErase, alistFind]
  | cons p rest ih =>
    by_cases hk : p.1 = k
    · simpa [alistErase, alistFind, hk] using ih
    · simpa [alistErase, alistFind, hk] using ih

/-! ## Claim theorems -/

/-- C9: for every code point absent from a face's code-point-to-index mapping,
glyph lookup returns "none", and kerning lookup for any ordered pair in which
that code point appears on either side returns 0. -/
theorem unmapped_code_point_lookups (f : FontFace) (c : ℕ)
    (h : alistFind f.glyphMapping_ c = Option.none) :
    f.GetGlyph c = Option.none ∧
    ∀ d : ℕ, f.GetKerning c d = 0 ∧ f.GetKerning d c = 0 := by
  refine ⟨?_, ?_⟩
  · unfold FontFace.GetGlyph
    rw [h]
  · intro d
    constructor
    · unfold FontFace.GetKerning
      split
      · rfl
      · split
        · rfl
        · rw [h]
    · unfold FontFace.GetKerning
      split
      · rfl
      · split
        · rfl
        · cases hd : alistFind f.glyphMapping_ d with
          | none => rfl
          | some li => rw [h]

/-- C9 witness: code point 99 is unmapped in `c9Face`, so its glyph lookup is
"none" and kerning against the mapped code point 65 is 0 on both sides. -/
theorem unmapped_code_point_lookups_witness :
    alistFind c9Face.glyphMapping_ 99 = Option.none ∧
    (c9Face.GetGlyph 99 = Option.none ∧
     ∀ d : ℕ, c9Face.GetKerning 99 d = 0 ∧ c9Face.GetKerning d 99 = 0) :=
  ⟨rfl, unmapped_code_point_lookups c9Face 99 rfl⟩

/-- C10: kerning lookup returns 0 whenever either code point of the ordered
pair is the newline character (code point 10), for every face — including
faces where both code points are mapped and a non-zero amount is stored, as
`c10Face` below exhibits. -/
theorem kerning_newline_returns_zero (f : FontFace) (c : ℕ) :
    f.GetKerning 10 c = 0 ∧ f.GetKerning c 10 = 0 := by
  constructor
  · unfold FontFace.GetKerning
    split
    · rfl
    · split
      · rfl
      · rename_i h2
        exact absurd (Or.inl rfl) h2
  · unfold FontFace.GetKerning
    split
    · rfl
    · split
      · rfl
      · rename_i h2
        exact absurd (Or.inr rfl) h2

/-- C1: evaluation of the bitmap-sheet pipeline at the claim's input.  The
build of `c1Desc` (chars 65 and 66, kernings section storing
kerning(65,66) = -2) succeeds, but the face's kerning lookup for (65,66)
returns 0, not the stored -2 — `FontFaceBitmap::Load` never sets
`hasKerning_` to true (Font.cpp:517-538), and it stores the pair under the
raw id 66 (as unsigned, 4294967294 = -2 mod 2^32) instead of under glyph
index 1 that `FontFace::GetKerning` (Font.cpp:124) looks up. -/
theorem bitmap_kerning_roundtrip_returns_zero :
    c1Built.map (fun face =>
        (face.GetKerning 65 66, face.GetKerning 66 65, face.hasKerning_,
         (face.glyphs_.getD 0 emptyGlyph).kerning_,
         alistFind face.glyphMapping_ 66))
      = some (0, 0, false, [(66, 4294967294)], some 1) := rfl

/-- The render loop's opacity statistics: `sumMaxOpacity` grows by exactly the
per-glyph maximum pixel values of the visited glyphs whose maximum is
non-zero, and `samples` counts them (Font.cpp:347-363 against the spec-side
`glyphMaxes`). -/
theorem renderGlyphs_accumulates (ft : FTFace) (glyphs : List FontGlyph) :
    ∀ (r i : ℕ) (d : ℤ → ℤ → ℕ) (sum samples : ℕ),
      (renderGlyphs ft d glyphs i r sum samples).2.1
        = sum + ((glyphMaxes ft glyphs i r).filter (fun m => m ≠ 0)).sum ∧
      (renderGlyphs ft d glyphs i r sum samples).2.2
        = samples + ((glyphMaxes ft glyphs i r).filter (fun m => m ≠ 0)).length := by
  intro r
  induction r with
  | zero =>
    intro i d sum samples
    simp [renderGlyphs, glyphMaxes]
  | succ k ih =>
    intro i d sum samples
    by_cases hz : (glyphs.getD i emptyGlyph).width_ = 0 ∨ (glyphs.getD i emptyGlyph).height_ = 0
    · have hr : renderGlyphs ft d glyphs i (k + 1) sum samples
          = renderGlyphs ft d glyphs (i + 1) k sum samples := by
        simp only [renderGlyphs]
        rw [if_pos hz]
      have hm : glyphMaxes ft glyphs i (k + 1) = 0 :: glyphMaxes ft glyphs (i + 1) k := by
        simp only [glyphMaxes]
        rw [if_pos hz]
      rw [hr, hm]
      simpa using ih (i + 1) d sum samples
    · have hm : glyphMaxes ft glyphs i (k + 1)
          = rectMax (ft.renderedPixel i) (glyphs.getD i emptyGlyph).width_
              (glyphs.getD i emptyGlyph).height_ :: glyphMaxes ft glyphs (i + 1) k := by
        simp only [glyphMaxes]
        rw [if_neg hz]
      by_cases ho : rectMax (ft.renderedPixel i) (glyphs.getD i emptyGlyph).width_
          (glyphs.getD i emptyGlyph).height_ ≠ 0
      · have hr : renderGlyphs ft d glyphs i (k + 1) sum samples
            = renderGlyphs ft
                (blitRect d (ft.renderedPixel i) (glyphs.getD i emptyGlyph).x_
                  (glyphs.getD i emptyGlyph).y_ (glyphs.getD i emptyGlyph).width_
                  (glyphs.getD i emptyGlyph).height_)
                glyphs (i + 1) k
                (sum + rectMax (ft.renderedPixel i) (glyphs.getD i emptyGlyph).width_
                  (glyphs.getD i emptyGlyph).height_)
                (samples + 1) := by
          simp only [renderGlyphs]
          rw [if_neg hz, if_pos ho]
        rw [hr, hm]
        rcases ih (i + 1)
            (blitRect d (ft.renderedPixel i) (glyphs.getD i emptyGlyph).x_
              (glyphs.getD i emptyGlyph).y_ (glyphs.getD i emptyGlyph).width_
              (glyphs.getD i emptyGlyph).height_)
            (sum + rectMax (ft.renderedPixel i) (glyphs.getD i emptyGlyph).width_
              (glyphs.getD i emptyGlyph).height_)
            (samples + 1) with ⟨h1, h2⟩
        rw [h1, h2]
        rw [List.filter_cons_of_pos (by simpa using ho)]
        constructor
        · simp only [List.sum_cons]
          omega
        · simp only [List.length_cons]
          omega
      · have hgz : rectMax (ft.renderedPixel i) (glyphs.getD i emptyGlyph).width_
            (glyphs.getD i emptyGlyph).height_ = 0 := by omega
        have hr : renderGlyphs ft d glyphs i (k + 1) sum samples
            = renderGlyphs ft
                (blitRect d (ft.renderedPixel i) (glyphs.getD i emptyGlyph).x_
                  (glyphs.getD i emptyGlyph).y_ (glyphs.getD i emptyGlyph).width_
                  (glyphs.getD i emptyGlyph).height_)
                glyphs (i + 1) k sum samples := by
          simp only [renderGlyphs]
          rw [if_neg hz, if_neg ho]
        rw [hr, hm, hgz]
        simpa using ih (i + 1)
          (blitRect d (ft.renderedPixel i) (glyphs.getD i emptyGlyph).x_
            (glyphs.getD i emptyGlyph).y_ (glyphs.getD i emptyGlyph).width_
            (glyphs.getD i emptyGlyph).height_) sum samples

/-- C5: the opacity normalizer.  (1) The accumulated `sumMaxOpacity` and
`samples` of the render loop range exactly over the glyphs whose maximum
pixel value is non-zero; (2) with at least one sample the average is the
integer mean clamped to a floor of 128; (3) every pixel of a glyph's occupied
sub-rectangle after the scaling pass is at most 255; (4) when every sampled
glyph's maximum pixel value is 64 the clamped average is 128, so the applied
scale is 255/128 (and 128 < 255, so the scaling pass engages). -/
theorem opacity_normalizer_correct :
    (∀ (ft : FTFace) (glyphs : List FontGlyph) (r i : ℕ) (d : ℤ → ℤ → ℕ)
       (sum samples : ℕ),
       (renderGlyphs ft d glyphs i r sum samples).2.1
         = sum + ((glyphMaxes ft glyphs i r).filter (fun m => m ≠ 0)).sum ∧
       (renderGlyphs ft d glyphs i r sum samples).2.2
         = samples + ((glyphMaxes ft glyphs i r).filter (fun m => m ≠ 0)).length) ∧
    (∀ sum samples : ℕ, samples ≠ 0 →
       avgMaxOpacity sum samples = max (sum / samples) 128) ∧
    (∀ (avg : ℕ) (img : Image) (g : FontGlyph) (X Y : ℤ),
       (g.x_ ≤ X ∧ X < g.x_ + g.width_ ∧ g.y_ ≤ Y ∧ Y < g.y_ + g.height_) →
       (scaleGlyphRegion avg img g).data X Y ≤ 255) ∧
    (∀ samples : ℕ, samples ≠ 0 →
       avgMaxOpacity (64 * samples) samples = 128 ∧
       (255 : ℚ) / ((avgMaxOpacity (64 * samples) samples : ℕ) : ℚ) = 255 / 128 ∧
       avgMaxOpacity (64 * samples) samples < 255) := by
  refine ⟨fun ft glyphs r i d sum samples => renderGlyphs_accumulates ft glyphs r i d sum samples,
    ?_, ?_, ?_⟩
  · intro sum samples h
    unfold avgMaxOpacity
    rw [if_pos h]
  · intro avg img g X Y h
    show (if g.x_ ≤ X ∧ X < g.x_ + g.width_ ∧ g.y_ ≤ Y ∧ Y < g.y_ + g.height_ then
            scalePixel avg (img.data X Y) else img.data X Y) ≤ 255
    rw [if_pos h]
    exact min_le_right _ _
  · intro samples h
    have h128 : avgMaxOpacity (64 * samples) samples = 128 := by
      unfold avgMaxOpacity
      rw [if_pos h, Nat.mul_div_cancel _ (Nat.pos_of_ne_zero h)]
      norm_num
    refine ⟨h128, ?_, ?_⟩
    · rw [h128]
      norm_num
    · rw [h128]
      norm_num

/-- C5 witness: one sampled glyph with maximum pixel value 64, one scaled
pixel of a concrete glyph region. -/
theorem opacity_normalizer_correct_witness :
    (1 ≠ 0) ∧
    avgMaxOpacity 64 1 = max (64 / 1) 128 ∧
    ((0 : ℤ) ≤ 0 ∧ (0 : ℤ) < 0 + 10 ∧ (0 : ℤ) ≤ 0 ∧ (0 : ℤ) < 0 + 12) ∧
    (scaleGlyphRegion 128 { width := 64, height := 64, data := fun _ _ => 64 }
        { x_ := 0, y_ := 0, width_ := 10, height_ := 12, offsetX_ := 0,
          offsetY_ := 0, advanceX_ := 11, page_ := 0, kerning_ := [] }).data 0 0 ≤ 255 ∧
    (avgMaxOpacity (64 * 1) 1 = 128 ∧
     (255 : ℚ) / ((avgMaxOpacity (64 * 1) 1 : ℕ) : ℚ) = 255 / 128 ∧
     avgMaxOpacity (64 * 1) 1 < 255) :=
  ⟨one_ne_zero,
   opacity_normalizer_correct.2.1 64 1 one_ne_zero,
   ⟨le_refl 0, by norm_num, le_refl 0, by norm_num⟩,
   opacity_normalizer_correct.2.2.1 128
     { width := 64, height := 64, data := fun _ _ => 64 }
     { x_ := 0, y_ := 0, width_ := 10, height_ := 12, offsetX_ := 0,
       offsetY_ := 0, advanceX_ := 11, page_ := 0, kerning_ := [] } 0 0
     ⟨le_refl 0, by norm_num, le_refl 0, by norm_num⟩,
   opacity_normalizer_correct.2.2.2 1 one_ne_zero⟩

/-- C2 counterexample: requesting an outline face at point size 0 is not
rejected.  `Font::GetFace` clamps the size into
`[MIN_POINT_SIZE, MAX_POINT_SIZE]` (Font.cpp:606) before the build, so with a
well-formed font (engine `c2Eng`) the call at size 0 builds and returns a
face instead of returning "no face". -/
theorem getFace_nonpositive_size_not_rejected :
    (Font.GetFace c2lt c2lb c2Font 0).map (fun p => p.1.isSome) = some true := rfl

/-- C2 amended: `Font::GetFace` clamps every requested outline point size to
`[MIN_POINT_SIZE, MAX_POINT_SIZE]` — a size of 0 or below is clamped up to
MIN_POINT_SIZE (1) and the build proceeds, and a size above MAX_POINT_SIZE
(96) is clamped down to 96 and proceeds; the non-positive-size rejection
(before any outline-engine call) happens only inside `FontFaceTTF::Load`
itself, which `GetFace` never reaches with a non-positive size. -/
theorem getFace_clamps_and_load_rejects_nonpositive :
    (∀ (lt : ℤ → LoadResult) (lb : ℤ → Option FontFace) (f : Font) (ps : ℤ),
       f.fontType = FontType.FONT_TTF →
       Font.GetFace lt lb f ps
         = Font.GetFace lt lb f (Clamp ps MIN_POINT_SIZE MAX_POINT_SIZE)) ∧
    (∀ (eng : TTFEngine) (cfg : FontConfig) (mk : Image → Option Texture)
       (ds : ℕ) (ps : ℤ) (fuel : ℕ), ps ≤ 0 →
       FontFaceTTF.Load eng cfg mk ds ps fuel = LoadResult.fail) := by
  constructor
  · intro lt lb f ps ht
    have hk : Font.faceKey f (Clamp ps MIN_POINT_SIZE MAX_POINT_SIZE)
        = Font.faceKey f ps := by
      unfold Font.faceKey
      rw [ht]
      show Clamp (Clamp ps MIN_POINT_SIZE MAX_POINT_SIZE) MIN_POINT_SIZE MAX_POINT_SIZE
          = Clamp ps MIN_POINT_SIZE MAX_POINT_SIZE
      unfold Clamp MIN_POINT_SIZE MAX_POINT_SIZE
      split_ifs <;> omega
    unfold Font.GetFace
    rw [hk]
  · intro eng cfg mk ds ps fuel h
    unfold FontFaceTTF.Load
    rw [if_pos h]

/-- C2 witness for the amended claim: for the concrete outline font `c2Font`,
the call at size 0 equals the call at the clamped size 1, and
`FontFaceTTF::Load` at size 0 fails for the concrete engine before any
engine response matters. -/
theorem getFace_clamps_witness :
    c2Font.fontType = FontType.FONT_TTF ∧
    ((0 : ℤ) ≤ 0) ∧
    Font.GetFace c2lt c2lb c2Font 0
      = Font.GetFace c2lt c2lb c2Font (Clamp 0 MIN_POINT_SIZE MAX_POINT_SIZE) ∧
    FontFaceTTF.Load c2Eng c2Cfg okTexture 100 0 8 = LoadResult.fail :=
  ⟨rfl, le_refl 0,
   getFace_clamps_and_load_rejects_nonpositive.1 c2lt c2lb c2Font 0 rfl,
   getFace_clamps_and_load_rejects_nonpositive.2 c2Eng c2Cfg okTexture 100 0 8 (le_refl 0)⟩

/-- C4: build-failure atomicity.  Whenever a `GetFace` call returns
"no face" (and the graphics subsystem exists, so the call was not the
headless short-circuit), the face cache holds no entry at the effective key
afterwards: a failed build never populates the cache, and a later lookup at
that size still misses. -/
theorem failed_build_leaves_cache_unpopulated
    (lt : ℤ → LoadResult) (lb : ℤ → Option FontFace) (f : Font) (ps : ℤ)
    (f' : Font)
    (hg : f.hasGraphics = true)
    (h : Font.GetFace lt lb f ps = some ((Option.none : Option FontFace), f')) :
    alistFind f'.faces (Font.faceKey f ps) = (Option.none : Option FontFace) := by
  unfold Font.GetFace at h
  split at h
  case isFalse hh => exact absurd hg hh
  case isTrue _ =>
    split at h
    case h_2 hfind =>
      -- cache miss: the build ran on `f` itself
      unfold Font.BuildFace at h
      split at h
      case h_1 hft =>
        unfold Font.GetFaceTTF at h
        split at h
        case h_1 => exact Option.noConfusion h
        case h_2 =>
          simp only [Option.some.injEq, Prod.mk.injEq] at h
          obtain ⟨-, h2⟩ := h
          rw [← h2]
          exact hfind
        case h_3 face0 hok => simp at h
      case h_2 hft =>
        unfold Font.GetFaceBitmap at h
        split at h
        case h_1 hnone =>
          simp only [Option.some.injEq, Prod.mk.injEq] at h
          obtain ⟨-, h2⟩ := h
          rw [← h2]
          exact hfind
        case h_2 face0 hok => simp at h
      case h_3 hft =>
        simp only [Option.some.injEq, Prod.mk.injEq] at h
        obtain ⟨-, h2⟩ := h
        rw [← h2]
        exact hfind
    case h_1 face hfind =>
      split at h
      case isFalse hlost => simp at h
      case isTrue hlost =>
        -- data lost: the entry was erased, then the build ran on the erased state
        unfold Font.BuildFace at h
        split at h
        case h_1 hft =>
          unfold Font.GetFaceTTF at h
          split at h
          case h_1 => exact Option.noConfusion h
          case h_2 =>
            simp only [Option.some.injEq, Prod.mk.injEq] at h
            obtain ⟨-, h2⟩ := h
            rw [← h2]
            exact alistFind_erase_self f.faces (Font.faceKey f ps)
          case h_3 face0 hok => simp at h
        case h_2 hft =>
          unfold Font.GetFaceBitmap at h
          split at h
          case h_1 hnone =>
            simp only [Option.some.injEq, Prod.mk.injEq] at h
            obtain ⟨-, h2⟩ := h
            rw [← h2]
            exact alistFind_erase_self f.faces (Font.faceKey f ps)
          case h_2 face0 hok => simp at h
        case h_3 hft =>
          simp only [Option.some.injEq, Prod.mk.injEq] at h
          obtain ⟨-, h2⟩ := h
          rw [← h2]
          exact alistFind_erase_self f.faces (Font.faceKey f ps)

/-- C4 witness: a TTF build that fails at size 7 returns "no face" and the
cache still misses at that key afterwards. -/
theorem failed_build_leaves_cache_unpopulated_witness :
    c4Font.hasGraphics = true ∧
    Font.GetFace c4lt c4lb c4Font 7
      = some ((Option.none : Option FontFace), { c4Font with nextId := 1 }) ∧
    alistFind ({ c4Font with nextId := 1 } : Font).faces (Font.faceKey c4Font 7)
      = (Option.none : Option FontFace) :=
  ⟨rfl, rfl,
   failed_build_leaves_cache_unpopulated c4lt c4lb c4Font 7
     { c4Font with nextId := 1 } rfl rfl⟩

/-- C6: cache invalidation on data loss.  When the cached face at the
effective key reports data loss, the next `GetFace` at that size evicts the
stale entry, rebuilds, and returns the freshly allocated face — a different
object than the stale one (its allocation stamp is fresh, while every cached
face was stamped by an earlier allocation) — and the cache now maps the key
to the new face. -/
theorem data_lost_face_rebuilt
    (lt : ℤ → LoadResult) (lb : ℤ → Option FontFace) (f : Font) (ps : ℤ)
    (g face0 : FontFace)
    (hg : f.hasGraphics = true)
    (ht : f.fontType = FontType.FONT_TTF)
    (hfind : alistFind f.faces (Font.faceKey f ps) = some g)
    (hlost : g.IsDataLost = true)
    (hid : g.objId < f.nextId)
    (hload : lt (Font.faceKey f ps) = LoadResult.ok face0) :
    Font.GetFace lt lb f ps
      = some (some { face0 with objId := f.nextId },
          { f with
            faces := alistInsert (alistErase f.faces (Font.faceKey f ps))
              (Font.faceKey f ps) { face0 with objId := f.nextId },
            nextId := f.nextId + 1 }) ∧
    { face0 with objId := f.nextId } ≠ g ∧
    alistFind (alistInsert (alistErase f.faces (Font.faceKey f ps))
        (Font.faceKey f ps) { face0 with objId := f.nextId })
      (Font.faceKey f ps) = some { face0 with objId := f.nextId } := by
  refine ⟨?_, ?_, ?_⟩
  · simp [Font.GetFace, hg, hfind, hlost, Font.BuildFace, ht, Font.GetFaceTTF, hload]
  · intro he
    have h2 : f.nextId = g.objId := congrArg FontFace.objId he
    omega
  · exact alistFind_insert_self _ _ _

/-- C6 witness: the font `c6Font` caches the data-lost face `c6Stale` at
size 12; `GetFace` at 12 rebuilds, returns a face different from the stale
one, and re-populates the cache with it. -/
theorem data_lost_face_rebuilt_witness :
    c6Font.hasGraphics = true ∧
    alistFind c6Font.faces (Font.faceKey c6Font 12) = some c6Stale ∧
    c6Stale.IsDataLost = true ∧
    c6Stale.objId < c6Font.nextId ∧
    ({ c6New with objId := c6Font.nextId } ≠ c6Stale ∧
     Font.GetFace c6lt c6lb c6Font 12
       = some (some { c6New with objId := c6Font.nextId },
           { c6Font with
             faces := alistInsert (alistErase c6Font.faces (Font.faceKey c6Font 12))
               (Font.faceKey c6Font 12) { c6New with objId := c6Font.nextId },
             nextId := c6Font.nextId + 1 })) :=
  ⟨rfl, rfl, rfl, Nat.zero_lt_one,
   (data_lost_face_rebuilt c6lt c6lb c6Font 12 c6Stale c6New rfl rfl rfl rfl
      Nat.zero_lt_one rfl).2.1,
   (data_lost_face_rebuilt c6lt c6lb c6Font 12 c6Stale c6New rfl rfl rfl rfl
      Nat.zero_lt_one rfl).1⟩

/-- C7: cache-hit stability.  If a `GetFace` call returned a face whose
backing textures report no data loss, an immediately following `GetFace` at
the same requested size returns the identical cached face and leaves the
font's state unchanged — a cache hit, not a rebuild. -/
theorem cache_hit_returns_identical_face
    (lt : ℤ → LoadResult) (lb : ℤ → Option FontFace) (f : Font) (ps : ℤ)
    (face : FontFace) (f' : Font)
    (h : Font.GetFace lt lb f ps = some (some face, f'))
    (hd : face.IsDataLost = false) :
    Font.GetFace lt lb f' ps = some (some face, f') := by
  unfold Font.GetFace at h
  split at h
  case isFalse hh => simp at h
  case isTrue hg =>
    split at h
    case h_1 g hfind =>
      split at h
      case isFalse hlost =>
        simp only [Option.some.injEq, Prod.mk.injEq] at h
        obtain ⟨h1, h2⟩ := h
        subst h2
        subst h1
        simp [Font.GetFace, hg, hfind, hd]
      case isTrue hlost =>
        unfold Font.BuildFace at h
        split at h
        case h_1 hft =>
          have hft' : f.fontType = FontType.FONT_TTF := hft
          unfold Font.GetFaceTTF at h
          split at h
          case h_1 => exact Option.noConfusion h
          case h_2 => simp at h
          case h_3 face0 hok =>
            simp only [Option.some.injEq, Prod.mk.injEq] at h
            obtain ⟨h1, h2⟩ := h
            subst h2
            subst h1
            simp [Font.GetFace, Font.faceKey, hft', hg, hd, alistFind_insert_self]
        case h_2 hft =>
          have hft' : f.fontType = FontType.FONT_BITMAP := hft
          unfold Font.GetFaceBitmap at h
          split at h
          case h_1 => simp at h
          case h_2 face0 hok =>
            simp only [Option.some.injEq, Prod.mk.injEq] at h
            obtain ⟨h1, h2⟩ := h
            subst h2
            subst h1
            simp [Font.GetFace, Font.faceKey, hft', hg, hd, alistFind_insert_self]
        case h_3 hft => simp at h
    case h_2 hfind =>
      unfold Font.BuildFace at h
      split at h
      case h_1 hft =>
        have hft' : f.fontType = FontType.FONT_TTF := hft
        unfold Font.GetFaceTTF at h
        split at h
        case h_1 => exact Option.noConfusion h
        case h_2 => simp at h
        case h_3 face0 hok =>
          simp only [Option.some.injEq, Prod.mk.injEq] at h
          obtain ⟨h1, h2⟩ := h
          subst h2
          subst h1
          simp [Font.GetFace, Font.faceKey, hft', hg, hd, alistFind_insert_self]
      case h_2 hft =>
        have hft' : f.fontType = FontType.FONT_BITMAP := hft
        unfold Font.GetFaceBitmap at h
        split at h
        case h_1 => simp at h
        case h_2 face0 hok =>
          simp only [Option.some.injEq, Prod.mk.injEq] at h
          obtain ⟨h1, h2⟩ := h
          subst h2
          subst h1
          simp [Font.GetFace, Font.faceKey, hft', hg, hd, alistFind_insert_self]
      case h_3 hft => simp at h

/-- C7 witness: a first `GetFace` on the bitmap font `c7Font` builds and
caches a face; the second call at the same size returns the identical face
and state. -/
theorem cache_hit_returns_identical_face_witness :
    Font.GetFace c7lt c7lb c7Font 5
      = some (some { c7New with objId := 0 },
          { c7Font with
            faces := alistInsert c7Font.faces 0 { c7New with objId := 0 },
            nextId := 1 }) ∧
    ({ c7New with objId := 0 } : FontFace).IsDataLost = false ∧
    Font.GetFace c7lt c7lb
        { c7Font with
          faces := alistInsert c7Font.faces 0 { c7New with objId := 0 },
          nextId := 1 } 5
      = some (some { c7New with objId := 0 },
          { c7Font with
            faces := alistInsert c7Font.faces 0 { c7New with objId := 0 },
            nextId := 1 }) :=
  ⟨rfl, rfl,
   cache_hit_returns_identical_face c7lt c7lb c7Font 5
     { c7New with objId := 0 }
     { c7Font with
       faces := alistInsert c7Font.faces 0 { c7New with objId := 0 },
       nextId := 1 } rfl rfl⟩

/-- C8: bitmap-sheet ingestion postcondition.  For the descriptor `c8Desc`
(count=1, one char record id=65 x=0 y=0 width=10 height=12 xoffset=0
yoffset=0 xadvance=11 page=0) with its one page image loading successfully,
`GetFace` at every requested point size returns the face built from the
sheet, whose glyph lookup at code point 65 yields exactly width 10,
height 12, advance 11, page 0, and whose lookup at code point 66 yields
"none". -/
theorem bitmap_ingestion_glyph_lookup :
    (∀ ps : ℤ, Font.GetFace c8lt c8lb c8Font ps
        = some (some c8Face,
            { c8Font with faces := alistInsert c8Font.faces 0 c8Face, nextId := 1 })) ∧
    c8Face.GetGlyph 65
      = some { x_ := 0, y_ := 0, width_ := 10, height_ := 12, offsetX_ := 0,
               offsetY_ := 0, advanceX_ := 11, page_ := 0, kerning_ := [] } ∧
    c8Face.GetGlyph 66 = Option.none :=
  ⟨fun _ => rfl, rfl, rfl⟩

/-- The paging loop never advances past an unpackable glyph: with `startIndex`
stuck at the oversized glyph (index 1 of `c3Glyphs`), every iteration fails
the first allocation, breaks with `index = startIndex`, opens yet another
page and recurses with the same `startIndex` — for every fuel the loop is
still running. -/
theorem packLoop_stuck_at_oversized_glyph :
    ∀ (n : ℕ) (images : List Image) (page : ℕ) (s m : ℕ),
      packLoop c3FT c3Cfg c3Glyphs 2 images page 1 s m n = Option.none := by
  intro n
  induction n with
  | zero => intro images page s m; rfl
  | succ k ih =>
    intro images page s m
    show packLoop c3FT c3Cfg c3Glyphs 2
        (images ++ [{ width := 128, height := 128, data := fun _ _ => 0 }])
        (page + 1) 1 s m k = Option.none
    exact ih _ _ _ _

/-- C3: the claim's failure mode does not fail — it loops.  For the engine
`c3FT` whose glyph index 1 measures 3000×2 pixels (padded width 3001 exceeds
the maximum page dimension 2048 of `c3Cfg`), `FontFaceTTF::Load` never
returns: for every fuel bound the packing loop (Font.cpp:296-368) is still
running, because a failed first allocation leaves `startIndex` unchanged
(Font.cpp:311-312, 367) and the `while` guard never becomes false. -/
theorem ttf_build_oversized_glyph_never_returns :
    ∀ fuel : ℕ,
      FontFaceTTF.Load c3Eng c3Cfg okTexture 100 12 fuel = LoadResult.hang := by
  have h0 : ∀ fuel : ℕ,
      packLoop c3FT c3Cfg c3Glyphs 2 [] 0 0 0 0 fuel = Option.none := by
    intro fuel
    cases fuel with
    | zero => rfl
    | succ k =>
      show packLoop c3FT c3Cfg c3Glyphs 2
          ([] ++ [{ width := 128, height := 128, data := fun _ _ => 0 }])
          1 1 0 0 k = Option.none
      exact packLoop_stuck_at_oversized_glyph k _ _ _ _
  intro fuel
  show (match packLoop c3FT c3Cfg c3Glyphs 2 [] 0 0 0 0 fuel with
        | Option.none => LoadResult.hang
        | some r => ttfFinishBuild okTexture [(65, 1)] false 12 12 r)
      = LoadResult.hang
  rw [h0 fuel]
